import Mathlib

/-!
Verification of the reencryption-key-hodler contract (`src/contract.rs`,
`src/msg.rs`): a single-record state machine holding one 32-byte
reencryption key with an owner-gated reset.
-/

namespace Hodler

/-- Human-readable address of a message sender (`env.message.sender`). -/
abbrev Addr := String

/-- Canonical address produced by the host API (`CanonicalAddr`). -/
abbrev CanonAddr := String

/-- A fixed-size 32-byte value, one byte per index (`[u8; 32]`). -/
abbrev Key := Fin 32 → Nat

/-- The all-zero 32-byte value `[0; 32]`. -/
def zeroKey : Key := fun _ => 0

/-- The errors this contract produces or propagates: `StdError::Unauthorized`
raised by `try_reset`; `StdError::NotFound` raised by a `load` on
uninitialized storage; any other host error (e.g. a failing
`canonical_address`) collapsed to a generic variant, which is neither
`unauthorized` nor `notFound`. -/
inductive StdError where
  | unauthorized
  | notFound
  | genericErr
deriving DecidableEq

/-- The host API, an opaque external collaborator: `canonical_address`
normalizes a sender address and may fail (`none`) on a malformed address;
such a failure surfaces as a generic host error. -/
structure Api where
  canonical_address : Addr → Option CanonAddr

/-- Modelled from the spec: `src/state.rs` is not among the sources; per the
spec the State Store persists a single record
`ContractState { owner, reencryption_key }`. Field order follows the struct
literal in `init` in `src/contract.rs`. -/
structure State where
  reencryption_key : Key
  owner : CanonAddr
deriving DecidableEq

/-- Modelled from the spec: the host's durable storage holds at most one
serialized `State` record under a fixed key; `none` means `Initialize` has
never run. -/
abbrev Store := Option State

/-- Modelled from the spec: `load()` fails with `NotFound` if called before
initialization, otherwise returns the single record. -/
def load (s : Store) : Except StdError State :=
  match s with
  | none => .error .notFound
  | some st => .ok st

/-- Modelled from the spec: `save(ContractState)` is an idempotent overwrite
of the single record. -/
def save (st : State) (_s : Store) : Store := some st

/-- Modelled from the spec: the singleton `update` pattern used by
`try_set_reencryption_key` and `try_reset` loads the record, applies the
closure, and saves only on `Ok`; on any error the store is left unchanged. -/
def update (f : State → Except StdError State) (s : Store) :
    Except StdError Unit × Store :=
  match load s with
  | .error e => (.error e, s)
  | .ok st =>
    match f st with
    | .error e => (.error e, s)
    | .ok st' => (.ok (), save st' s)

/-- `InitMsg {}`: the initialize request carries no payload. -/
structure InitMsg where

/-- `InitResponse::default()`: the empty, payload-free init response. -/
inductive InitResponse where
  | default
deriving DecidableEq

/-- `HandleResponse::default()`: the empty, payload-free handle response. -/
inductive HandleResponse where
  | default
deriving DecidableEq

/-- `HandleMsg`: either `Set { reencryption_key }` or `Reset {}`. -/
inductive HandleMsg where
  | Set (reencryption_key : Key)
  | Reset
deriving DecidableEq

/-- `QueryMsg`: the single query variant `GetReencryptionKey {}`. -/
inductive QueryMsg where
  | GetReencryptionKey
deriving DecidableEq

/-- `ReencryptionKeyResponse { reencryption_key }`. -/
structure ReencryptionKeyResponse where
  reencryption_key : Key
deriving DecidableEq

/-- `init` from `src/contract.rs`: canonicalize the sender (propagating any
host error), build `State { reencryption_key: [0;32], owner }`, and save it
unconditionally. Returns the default response together with the resulting
store. -/
def init (api : Api) (sender : Addr) (_msg : InitMsg) (store : Store) :
    Except StdError InitResponse × Store :=
  match api.canonical_address sender with
  | none => (.error .genericErr, store)
  | some owner =>
    (.ok .default, save { reencryption_key := zeroKey, owner := owner } store)

/-- `try_set_reencryption_key` from `src/contract.rs`: canonicalize the
sender (the result is unused, but a failure propagates), then `update` the
record, overwriting `reencryption_key` with the supplied bytes. -/
def try_set_reencryption_key (api : Api) (sender : Addr) (key : Key)
    (store : Store) : Except StdError HandleResponse × Store :=
  match api.canonical_address sender with
  | none => (.error .genericErr, store)
  | some _sender_address_raw =>
    match update (fun st => .ok { st with reencryption_key := key }) store with
    | (.error e, s) => (.error e, s)
    | (.ok _, s) => (.ok .default, s)

/-- `try_reset` from `src/contract.rs`: canonicalize the sender, then
`update` the record: if the canonical sender differs from the stored owner,
fail with `Unauthorized` (no save); otherwise overwrite `reencryption_key`
with `[0;32]`. -/
def try_reset (api : Api) (sender : Addr) (store : Store) :
    Except StdError HandleResponse × Store :=
  match api.canonical_address sender with
  | none => (.error .genericErr, store)
  | some sender_address_raw =>
    match update (fun st =>
        if sender_address_raw ≠ st.owner then .error .unauthorized
        else .ok { st with reencryption_key := zeroKey }) store with
    | (.error e, s) => (.error e, s)
    | (.ok _, s) => (.ok .default, s)

/-- `handle` from `src/contract.rs`: dispatch on the message variant. -/
def handle (api : Api) (sender : Addr) (msg : HandleMsg) (store : Store) :
    Except StdError HandleResponse × Store :=
  match msg with
  | .Set reencryption_key => try_set_reencryption_key api sender reencryption_key store
  | .Reset => try_reset api sender store

/-- `query_count` from `src/contract.rs`: load the record and return its
`reencryption_key` verbatim. -/
def query_count (store : Store) : Except StdError ReencryptionKeyResponse :=
  match load store with
  | .error e => .error e
  | .ok st => .ok { reencryption_key := st.reencryption_key }

/-- `query` from `src/contract.rs`: dispatch the single query variant. -/
def query (store : Store) (msg : QueryMsg) :
    Except StdError ReencryptionKeyResponse :=
  match msg with
  | .GetReencryptionKey => query_count store

end Hodler

open Hodler

/-- A host API that canonicalizes every address to itself, used for concrete
evaluations. -/
def idApi : Api := ⟨fun a => some a⟩

/-- The 32-byte value with every byte equal to 1. -/
def oneKey : Key := fun _ => 1

/-- A concrete initialized state: key all-ones, owner `creator`. -/
def demoState : State := ⟨oneKey, "creator"⟩

/-- C1: on an initialized state, `Reset` by a caller whose canonical address
differs from the stored owner fails with `Unauthorized` and leaves the
stored state (owner and key) unchanged; `Reset` by the owner succeeds and
zeroes the stored key. -/
theorem reset_authorization (api : Api) (c : Addr) (st : State)
    (cc : CanonAddr) (h : api.canonical_address c = some cc) :
    (cc ≠ st.owner →
      try_reset api c (some st) = (.error .unauthorized, some st)) ∧
    (cc = st.owner →
      try_reset api c (some st) =
        (.ok .default, some { st with reencryption_key := zeroKey })) := by
  constructor
  · intro hne
    simp [try_reset, h, update, load, save, hne]
  · intro heq
    simp [try_reset, h, update, load, save, heq]

/-- C1 witness: with the identity API and owner `creator`, `Reset` by
`anyone` fails leaving the state unchanged, and `Reset` by `creator`
succeeds zeroing the key. -/
theorem reset_authorization_witness :
    try_reset idApi "anyone" (some demoState) =
      (.error .unauthorized, some demoState) ∧
    try_reset idApi "creator" (some demoState) =
      (.ok .default, some { demoState with reencryption_key := zeroKey }) :=
  ⟨(reset_authorization idApi "anyone" demoState "anyone" rfl).1 (by decide),
   (reset_authorization idApi "creator" demoState "creator" rfl).2 rfl⟩

/-- C2: a successful `Set(K)` (through the router), by any caller, followed
by `GetReencryptionKey` returns exactly `K`. -/
theorem set_get_round_trip (api : Api) (c : Addr) (k : Key)
    (store store2 : Store) (resp : HandleResponse)
    (h : handle api c (.Set k) store = (.ok resp, store2)) :
    query store2 .GetReencryptionKey = .ok ⟨k⟩ := by
  cases hc : api.canonical_address c <;> cases store <;>
    simp [handle, try_set_reencryption_key, hc, update, load, save] at h
  rw [← h]
  simp [query, query_count, load]

/-- C2 witness: setting the all-ones key as caller `anyone` on the demo
state, the query returns the all-ones key. -/
theorem set_get_round_trip_witness :
    query (handle idApi "anyone" (.Set oneKey) (some demoState)).2
      .GetReencryptionKey = .ok ⟨oneKey⟩ :=
  set_get_round_trip idApi "anyone" oneKey (some demoState)
    (handle idApi "anyone" (.Set oneKey) (some demoState)).2 .default rfl

/-- C3: a successful `Initialize` by caller `c` persists
`{ owner := canonicalize c, reencryption_key := [0;32] }`, and the query
immediately after returns 32 zero bytes. -/
theorem init_persists_owner_and_zero_key (api : Api) (c : Addr)
    (store : Store) (o : CanonAddr) (h : api.canonical_address c = some o) :
    init api c {} store = (.ok .default, some ⟨zeroKey, o⟩) ∧
    query (init api c {} store).2 .GetReencryptionKey = .ok ⟨zeroKey⟩ := by
  constructor
  · simp [init, h, save]
  · simp [init, h, save, query, query_count, load]

/-- C3 witness: initializing with caller `creator` under the identity API
persists the zero key with owner `creator`, and the query returns zeros. -/
theorem init_persists_owner_and_zero_key_witness :
    init idApi "creator" {} none = (.ok .default, some ⟨zeroKey, "creator"⟩) ∧
    query (init idApi "creator" {} none).2 .GetReencryptionKey =
      .ok ⟨zeroKey⟩ :=
  init_persists_owner_and_zero_key idApi "creator" none "creator" rfl

/-- C4: `Initialize` has no error outcome of its own: for every caller whose
address the host API canonicalizes, and every prior store content, it
returns success. -/
theorem init_always_succeeds (api : Api) (c : Addr) (store : Store)
    (o : CanonAddr) (h : api.canonical_address c = some o) :
    ∃ store2, init api c {} store = (.ok .default, store2) := by
  exact ⟨some ⟨zeroKey, o⟩, by simp [init, h, save]⟩

/-- C4 witness: initialization by `creator` on an empty store succeeds. -/
theorem init_always_succeeds_witness :
    ∃ store2, init idApi "creator" {} none = (.ok .default, store2) :=
  init_always_succeeds idApi "creator" none "creator" rfl

/-- C5: neither `Set` nor `Reset` ever changes the stored owner, whether the
call succeeds or fails; only the key field is mutated. -/
theorem owner_immutable (api : Api) (c : Addr) (k : Key) (store : Store) :
    ((try_set_reencryption_key api c k store).2).map State.owner =
      store.map State.owner ∧
    ((try_reset api c store).2).map State.owner = store.map State.owner := by
  constructor
  · cases hc : api.canonical_address c <;> cases store <;>
      simp [try_set_reencryption_key, hc, update, load, save]
  · cases hc : api.canonical_address c with
    | none => simp [try_reset, hc]
    | some cc =>
      cases store with
      | none => simp [try_reset, hc, update, load]
      | some st =>
        by_cases hcc : cc = st.owner <;>
          simp [try_reset, hc, update, load, save, hcc]

/-- C6: `Unauthorized` is raised only by `Reset`, exactly when the caller's
canonical address differs from the stored owner; `Set` and `Initialize`
never produce it. -/
theorem unauthorized_only_from_reset (api : Api) (c : Addr) (k : Key)
    (store : Store) (m : InitMsg) :
    (try_set_reencryption_key api c k store).1 ≠ .error .unauthorized ∧
    (init api c m store).1 ≠ .error .unauthorized ∧
    ((try_reset api c store).1 = .error .unauthorized ↔
      ∃ st cc, store = some st ∧ api.canonical_address c = some cc ∧
        cc ≠ st.owner) := by
  refine ⟨?_, ?_, ?_⟩
  · cases hc : api.canonical_address c <;> cases store <;>
      simp [try_set_reencryption_key, hc, update, load, save]
  · cases hc : api.canonical_address c <;> simp [init, hc, save]
  · cases hc : api.canonical_address c with
    | none => cases store <;> simp [try_reset, hc, update, load]
    | some cc =>
      cases store with
      | none => simp [try_reset, hc, update, load]
      | some st =>
        by_cases hcc : cc = st.owner <;>
          simp [try_reset, hc, update, load, save, hcc]

/-- C7: the query fails exactly when the store is uninitialized, the error
being `NotFound`; on an initialized store it returns the stored key
verbatim (and, being a pure function of the store, modifies nothing). -/
theorem query_spec :
    (∀ store : Store,
      (∃ e, query store .GetReencryptionKey = .error e) ↔ store = none) ∧
    query none .GetReencryptionKey = .error .notFound ∧
    (∀ st : State,
      query (some st) .GetReencryptionKey = .ok ⟨st.reencryption_key⟩) := by
  refine ⟨fun store => ?_, by simp [query, query_count, load],
    fun st => by simp [query, query_count, load]⟩
  cases store <;> simp [query, query_count, load]

/-- C8: `Reset` by the owner is idempotent: both of two consecutive calls
succeed, each leaving the stored key all-zero. -/
theorem reset_idempotent (api : Api) (c : Addr) (st : State)
    (cc : CanonAddr) (h : api.canonical_address c = some cc)
    (howner : cc = st.owner) :
    try_reset api c (some st) =
      (.ok .default, some { st with reencryption_key := zeroKey }) ∧
    try_reset api c (try_reset api c (some st)).2 =
      (.ok .default, some { st with reencryption_key := zeroKey }) := by
  have h1 : try_reset api c (some st) =
      (.ok .default, some { st with reencryption_key := zeroKey }) := by
    simp [try_reset, h, update, load, save, howner]
  refine ⟨h1, ?_⟩
  rw [h1]
  simp [try_reset, h, update, load, save, howner]

/-- C8 witness: two consecutive resets by `creator` on the demo state both
succeed and leave the key all-zero. -/
theorem reset_idempotent_witness :
    try_reset idApi "creator" (some demoState) =
      (.ok .default, some { demoState with reencryption_key := zeroKey }) ∧
    try_reset idApi "creator"
        (try_reset idApi "creator" (some demoState)).2 =
      (.ok .default, some { demoState with reencryption_key := zeroKey }) :=
  reset_idempotent idApi "creator" demoState "creator" rfl rfl

/-- C9: `init` has no guard against repeated initialization: invoked on an
already-initialized store by caller `d`, it does not fail and overwrites the
record with owner `canonicalize d` and the all-zero key. -/
theorem init_overwrites_existing_state (api : Api) (d : Addr) (st : State)
    (o : CanonAddr) (h : api.canonical_address d = some o) :
    init api d {} (some st) = (.ok .default, some ⟨zeroKey, o⟩) := by
  simp [init, h, save]

/-- C9 witness: re-initializing the demo state (owner `creator`, key
all-ones) as `mallory` succeeds and installs owner `mallory` with a zero
key. -/
theorem init_overwrites_existing_state_witness :
    init idApi "mallory" {} (some demoState) =
      (.ok .default, some ⟨zeroKey, "mallory"⟩) :=
  init_overwrites_existing_state idApi "mallory" demoState "mallory" rfl

/-- C10: the outcome of `Set` is independent of the caller: any two callers
whose addresses canonicalize successfully obtain the identical response and
identical post-state from the same pre-state and key. -/
theorem set_caller_independent (api : Api) (c1 c2 : Addr) (k : Key)
    (store : Store) (o1 o2 : CanonAddr)
    (h1 : api.canonical_address c1 = some o1)
    (h2 : api.canonical_address c2 = some o2) :
    try_set_reencryption_key api c1 k store =
      try_set_reencryption_key api c2 k store := by
  simp [try_set_reencryption_key, h1, h2]

/-- C10 witness: callers `anyone` and `creator` produce the same result
when setting the all-ones key on the demo state. -/
theorem set_caller_independent_witness :
    try_set_reencryption_key idApi "anyone" oneKey (some demoState) =
      try_set_reencryption_key idApi "creator" oneKey (some demoState) :=
  set_caller_independent idApi "anyone" "creator" oneKey (some demoState)
    "anyone" "creator" rfl rfl
